import Mathlib

/-!
Verification of the snippet serialization layer (`src/snippets/serializers.py`).

The repository declares a `SnippetSerializer` (explicit field contract with
hand-written `create`/`update`) and a `SnippetModelSerializer` (the same field
contract derived from the `Snippet` model).  The `Snippet` model itself and the
`LANGUAGE_CHOICES`/`STYLE_CHOICES` enumerations live in `snippets/models.py`,
which is not part of the sources available here; those parts, and the
framework's declarative field-validation semantics, are modelled from the
specification's field contract (spec section 3 and 4.1).
-/

namespace Snippets

/-- A plain JSON-like value, as produced by parsing a request body. -/
inductive Value where
  | str (s : String)
  | int (n : Int)
  | bool (b : Bool)
  | null
deriving Repr, DecidableEq

/-- An inbound or outbound plain key/value mapping (a parsed JSON object;
keys are unique, lookup takes the first binding, like a Python dict). -/
abbrev RawMapping : Type := List (String × Value)

/-- Modelled from the spec: `snippets/models.py` is not in the available
sources.  The spec (section 3) describes the persisted `Snippet` entity as an
integer `id` plus the five data fields. -/
structure Snippet where
  id : Int
  title : String
  code : String
  linenos : Bool
  language : String
  style : String
deriving Repr, DecidableEq

/-- Modelled from the spec: the fixed, externally supplied enumeration of
recognized language identifiers (`LANGUAGE_CHOICES` in the missing
`snippets/models.py`).  The spec treats it as a configuration-time constant
containing the default `"python"`; a representative sample is used. -/
def LANGUAGE_CHOICES : List String :=
  ["abap", "c", "java", "javascript", "python", "ruby"]

/-- Modelled from the spec: the fixed, externally supplied enumeration of
recognized display-style identifiers (`STYLE_CHOICES` in the missing
`snippets/models.py`), containing the default `"friendly"`. -/
def STYLE_CHOICES : List String :=
  ["autumn", "colorful", "default", "friendly", "monokai"]

/-- The validated data produced by a successful validation: a mapping that can
contain only the non-read-only fields (`title`, `code`, `linenos`, `language`,
`style`); a field is `none` when the key is absent from the mapping. -/
structure ValidatedData where
  title : Option String
  code : Option String
  linenos : Option Bool
  language : Option String
  style : Option String
deriving Repr, DecidableEq

/-- A Python runtime error, as opposed to a `ValidationError`. -/
inductive PyError where
  | typeError (msg : String)
deriving Repr, DecidableEq

/-- A `ValidationError` carries per-field human-readable messages. -/
abbrev ValidationError : Type := List (String × String)

/-- Python semantics of `d.get(key, default=x)`: the builtin `dict.get`
accepts no keyword arguments, so passing `default=` raises `TypeError`
before any value is produced.  (Lines 86-89 of `serializers.py` spell the
call exactly this way.) -/
def dictGetKwDefault {α : Type} (_lookedUp : Option α) (_fallback : α) :
    Except PyError α :=
  .error (.typeError "get() takes no keyword arguments")

/-- Python semantics of `d.get(key, x)` with a positional default, for
reference: returns the stored value when the key is present, else `x`. -/
def dictGetPos {α : Type} (lookedUp : Option α) (fallback : α) : α :=
  lookedUp.getD fallback

/-- Modelled from the spec: the persistence collaborator's
`createRecord(fields) -> record`, which assigns `id`.  `Snippet.objects.create`
builds the record from the supplied fields, with the model defaults of spec
section 3 for any absent field, and the store-chosen `nextId` as `id`. -/
def objectsCreate (nextId : Int) (vd : ValidatedData) : Snippet :=
  { id := nextId
    title := vd.title.getD ""
    code := vd.code.getD ""
    linenos := vd.linenos.getD false
    language := vd.language.getD "python"
    style := vd.style.getD "friendly" }

/-- Collect the per-field error message of one field's outcome. -/
def collectErr {α : Type} (name : String) : Except String α →
    List (String × String)
  | .error m => [(name, m)]
  | .ok _ => []

namespace SnippetSerializer

/-- Field rule for `title` (line 60): `CharField(required=False,
allow_blank=True, max_length=100)` — optional, blank allowed, at most 100
characters; the spec gives default `""` when absent. -/
def validateTitle (raw : RawMapping) : Except String String :=
  match raw.lookup "title" with
  | none => .ok ""
  | some (.str s) =>
      if s.length ≤ 100 then .ok s
      else .error "Ensure this field has no more than 100 characters."
  | some _ => .error "Not a valid string."

/-- Field rule for `code` (line 61): `CharField(...)` — required string. -/
def validateCode (raw : RawMapping) : Except String String :=
  match raw.lookup "code" with
  | none => .error "This field is required."
  | some (.str s) => .ok s
  | some _ => .error "Not a valid string."

/-- Field rule for `linenos` (line 62): `BooleanField(required=False)` —
optional boolean; the spec gives default `false` when absent. -/
def validateLinenos (raw : RawMapping) : Except String Bool :=
  match raw.lookup "linenos" with
  | none => .ok false
  | some (.bool b) => .ok b
  | some _ => .error "Must be a valid boolean."

/-- Field rule for `language` (line 63): `ChoiceField(choices=LANGUAGE_CHOICES,
default=python)` — optional, must belong to the fixed language set. -/
def validateLanguage (raw : RawMapping) : Except String String :=
  match raw.lookup "language" with
  | none => .ok "python"
  | some (.str s) =>
      if s ∈ LANGUAGE_CHOICES then .ok s
      else .error "Not a valid choice."
  | some _ => .error "Not a valid choice."

/-- Field rule for `style` (line 64): `ChoiceField(choices=STYLE_CHOICES,
default=friendly)` — optional, must belong to the fixed style set. -/
def validateStyle (raw : RawMapping) : Except String String :=
  match raw.lookup "style" with
  | none => .ok "friendly"
  | some (.str s) =>
      if s ∈ STYLE_CHOICES then .ok s
      else .error "Not a valid choice."
  | some _ => .error "Not a valid choice."

/-- Modelled from the spec: the framework's `is_valid` driven by the field
declarations of lines 59-64.  `id` is `read_only` and never read from the
input.  Every declared writable field is checked; on success the validated
mapping holds exactly the five non-read-only fields with defaults applied,
otherwise a `ValidationError` lists each failing field with its message. -/
def validate (raw : RawMapping) : Except ValidationError ValidatedData :=
  if (collectErr "title" (validateTitle raw) ++ collectErr "code" (validateCode raw) ++
      collectErr "linenos" (validateLinenos raw) ++
      collectErr "language" (validateLanguage raw) ++
      collectErr "style" (validateStyle raw)).isEmpty then
    .ok { title := (validateTitle raw).toOption, code := (validateCode raw).toOption,
          linenos := (validateLinenos raw).toOption,
          language := (validateLanguage raw).toOption,
          style := (validateStyle raw).toOption }
  else
    .error (collectErr "title" (validateTitle raw) ++ collectErr "code" (validateCode raw) ++
      collectErr "linenos" (validateLinenos raw) ++
      collectErr "language" (validateLanguage raw) ++
      collectErr "style" (validateStyle raw))

/-- Modelled from the spec: the framework's serialization of an instance
(`serializer.data`), projecting the entity's fields into an ordered mapping in
declaration order `id, title, code, linenos, language, style`. -/
def toPlainData (s : Snippet) : RawMapping :=
  [("id", .int s.id), ("title", .str s.title), ("code", .str s.code),
   ("linenos", .bool s.linenos), ("language", .str s.language),
   ("style", .str s.style)]

/-- Lines 66-76: `create` builds and persists a new `Snippet` via
`Snippet.objects.create(**validated_data)`; the persistence collaborator
supplies the fresh `id`. -/
def create (nextId : Int) (vd : ValidatedData) : Snippet :=
  objectsCreate nextId vd

end SnippetSerializer

/-- The observable outcome of an `update` call: the value returned (or the
error raised), the state of the instance's fields afterwards, and whether
`instance.save()` was reached. -/
structure UpdateResult where
  outcome : Except PyError Snippet
  finalInstance : Snippet
  saved : Bool
deriving Repr

namespace SnippetSerializer

/-- Lines 78-91: `update` assigns `title`, `code`, `language`, `style` from
`validated_data.get(field, default=<current value>)` in that order, then calls
`instance.save()` and returns the instance.  Each right-hand side is evaluated
before its assignment, and a raised error aborts the method with the fields
mutated so far. -/
def update (inst : Snippet) (vd : ValidatedData) : UpdateResult :=
  match dictGetKwDefault vd.title inst.title with
  | .error e => { outcome := .error e, finalInstance := inst, saved := false }
  | .ok t =>
    let i1 := { inst with title := t }
    match dictGetKwDefault vd.code i1.code with
    | .error e => { outcome := .error e, finalInstance := i1, saved := false }
    | .ok c =>
      let i2 := { i1 with code := c }
      match dictGetKwDefault vd.language i2.language with
      | .error e => { outcome := .error e, finalInstance := i2, saved := false }
      | .ok la =>
        let i3 := { i2 with language := la }
        match dictGetKwDefault vd.style i3.style with
        | .error e => { outcome := .error e, finalInstance := i3, saved := false }
        | .ok st =>
          let i4 := { i3 with style := st }
          { outcome := .ok i4, finalInstance := i4, saved := true }

end SnippetSerializer

/-- Is there an error message recorded for field `f`? -/
def hasFieldError (r : Except ValidationError ValidatedData)
    (f : String) : Bool :=
  match r with
  | .error e => e.any (fun p => p.1 == f)
  | .ok _ => false

namespace SnippetModelSerializer

/-- Modelled from the spec: the `ModelSerializer` variant (lines 94-126)
infers the same field contract from the `Snippet` model's own declaration,
listing `Meta.fields = (id, title, code, linenos, language, style)`.
The inferred `title` rule: optional text, blank allowed, at most 100
characters, default `""`. -/
def validateTitle (raw : RawMapping) : Except String String :=
  match raw.lookup "title" with
  | none => .ok ""
  | some (.str s) =>
      if s.length ≤ 100 then .ok s
      else .error "Ensure this field has no more than 100 characters."
  | some _ => .error "Not a valid string."

/-- Modelled from the spec: the inferred `code` rule — required text. -/
def validateCode (raw : RawMapping) : Except String String :=
  match raw.lookup "code" with
  | none => .error "This field is required."
  | some (.str s) => .ok s
  | some _ => .error "Not a valid string."

/-- Modelled from the spec: the inferred `linenos` rule — optional boolean,
default `false`. -/
def validateLinenos (raw : RawMapping) : Except String Bool :=
  match raw.lookup "linenos" with
  | none => .ok false
  | some (.bool b) => .ok b
  | some _ => .error "Must be a valid boolean."

/-- Modelled from the spec: the inferred `language` rule — optional, must
belong to the fixed language enumeration, default `"python"`. -/
def validateLanguage (raw : RawMapping) : Except String String :=
  match raw.lookup "language" with
  | none => .ok "python"
  | some (.str s) =>
      if s ∈ LANGUAGE_CHOICES then .ok s
      else .error "Not a valid choice."
  | some _ => .error "Not a valid choice."

/-- Modelled from the spec: the inferred `style` rule — optional, must belong
to the fixed style enumeration, default `"friendly"`. -/
def validateStyle (raw : RawMapping) : Except String String :=
  match raw.lookup "style" with
  | none => .ok "friendly"
  | some (.str s) =>
      if s ∈ STYLE_CHOICES then .ok s
      else .error "Not a valid choice."
  | some _ => .error "Not a valid choice."

/-- Modelled from the spec: validation against the model-inferred contract,
`id` being read-only; per-field messages are collected on failure. -/
def validate (raw : RawMapping) : Except ValidationError ValidatedData :=
  if (collectErr "title" (validateTitle raw) ++ collectErr "code" (validateCode raw) ++
      collectErr "linenos" (validateLinenos raw) ++
      collectErr "language" (validateLanguage raw) ++
      collectErr "style" (validateStyle raw)).isEmpty then
    .ok { title := (validateTitle raw).toOption, code := (validateCode raw).toOption,
          linenos := (validateLinenos raw).toOption,
          language := (validateLanguage raw).toOption,
          style := (validateStyle raw).toOption }
  else
    .error (collectErr "title" (validateTitle raw) ++ collectErr "code" (validateCode raw) ++
      collectErr "linenos" (validateLinenos raw) ++
      collectErr "language" (validateLanguage raw) ++
      collectErr "style" (validateStyle raw))

/-- Modelled from the spec: serialization in `Meta.fields` order
`(id, title, code, linenos, language, style)`. -/
def toPlainData (s : Snippet) : RawMapping :=
  [("id", .int s.id), ("title", .str s.title), ("code", .str s.code),
   ("linenos", .bool s.linenos), ("language", .str s.language),
   ("style", .str s.style)]

/-- Modelled from the spec: the automatically derived `create` builds the
record from the validated data via the persistence collaborator, which
assigns `id`. -/
def create (nextId : Int) (vd : ValidatedData) : Snippet :=
  objectsCreate nextId vd

/-- Modelled from the spec: the automatically derived `update` assigns every
field present in the validated data onto the instance (plain field
assignment, no `linenos` exception), persists immediately, and returns the
mutated instance. -/
def update (inst : Snippet) (vd : ValidatedData) : UpdateResult :=
  let i := { inst with
    title := vd.title.getD inst.title
    code := vd.code.getD inst.code
    linenos := vd.linenos.getD inst.linenos
    language := vd.language.getD inst.language
    style := vd.style.getD inst.style }
  { outcome := .ok i, finalInstance := i, saved := true }

end SnippetModelSerializer

/-- The inbound mapping with every binding for the read-only key `id`
removed: what remains is what validation is allowed to consume. -/
def eraseId (raw : RawMapping) : RawMapping :=
  raw.filter (fun p => p.1 != "id")

/-- A 101-character string, exceeding the 100-character bound on `title`. -/
def longTitle : String := String.mk (List.replicate 101 'a')

/-- The spec's example scenario input: a mapping holding only `code`. -/
def exampleHelloWorld : RawMapping :=
  [("code", Value.str "print(\"Hello World!\")")]

namespace SnippetSerializer

lemma validateTitle_ok_length {raw : RawMapping} {t : String}
    (h : validateTitle raw = .ok t) : t.length ≤ 100 := by
  unfold validateTitle at h
  split at h
  · simp only [Except.ok.injEq] at h
    subst h
    decide
  · split at h
    · simp only [Except.ok.injEq] at h
      subst h
      assumption
    · simp at h
  · simp at h

lemma validateLanguage_ok_mem {raw : RawMapping} {la : String}
    (h : validateLanguage raw = .ok la) : la ∈ LANGUAGE_CHOICES := by
  unfold validateLanguage at h
  split at h
  · simp only [Except.ok.injEq] at h
    subst h
    decide
  · split at h
    · simp only [Except.ok.injEq] at h
      subst h
      assumption
    · simp at h
  · simp at h

lemma validateStyle_ok_mem {raw : RawMapping} {st : String}
    (h : validateStyle raw = .ok st) : st ∈ STYLE_CHOICES := by
  unfold validateStyle at h
  split at h
  · simp only [Except.ok.injEq] at h
    subst h
    decide
  · split at h
    · simp only [Except.ok.injEq] at h
      subst h
      assumption
    · simp at h
  · simp at h

lemma validateTitle_of_none {raw : RawMapping}
    (hl : raw.lookup "title" = none) : validateTitle raw = .ok "" := by
  unfold validateTitle
  rw [hl]

lemma validateTitle_of_str {raw : RawMapping} {s : String}
    (hl : raw.lookup "title" = some (.str s)) (hlen : s.length ≤ 100) :
    validateTitle raw = .ok s := by
  unfold validateTitle
  rw [hl]
  show (if s.length ≤ 100 then Except.ok s else _) = _
  rw [if_pos hlen]

lemma validateTitle_of_str_long {raw : RawMapping} {s : String}
    (hl : raw.lookup "title" = some (.str s)) (hlen : 100 < s.length) :
    validateTitle raw =
      .error "Ensure this field has no more than 100 characters." := by
  unfold validateTitle
  rw [hl]
  show (if s.length ≤ 100 then _ else _) = _
  rw [if_neg (by omega)]

lemma validateCode_of_none {raw : RawMapping}
    (hl : raw.lookup "code" = none) :
    validateCode raw = .error "This field is required." := by
  unfold validateCode
  rw [hl]

lemma validateCode_of_str {raw : RawMapping} {s : String}
    (hl : raw.lookup "code" = some (.str s)) : validateCode raw = .ok s := by
  unfold validateCode
  rw [hl]

lemma validateCode_of_wrong_type {raw : RawMapping} {v : Value}
    (hl : raw.lookup "code" = some v) (hv : ∀ s, v ≠ .str s) :
    validateCode raw = .error "Not a valid string." := by
  unfold validateCode
  rw [hl]
  cases v with
  | str s => exact absurd rfl (hv s)
  | int n => rfl
  | bool b => rfl
  | null => rfl

lemma validateLinenos_of_none {raw : RawMapping}
    (hl : raw.lookup "linenos" = none) : validateLinenos raw = .ok false := by
  unfold validateLinenos
  rw [hl]

lemma validateLinenos_of_bool {raw : RawMapping} {b : Bool}
    (hl : raw.lookup "linenos" = some (.bool b)) :
    validateLinenos raw = .ok b := by
  unfold validateLinenos
  rw [hl]

lemma validateLanguage_of_none {raw : RawMapping}
    (hl : raw.lookup "language" = none) :
    validateLanguage raw = .ok "python" := by
  unfold validateLanguage
  rw [hl]

lemma validateLanguage_of_str_mem {raw : RawMapping} {s : String}
    (hl : raw.lookup "language" = some (.str s)) (hs : s ∈ LANGUAGE_CHOICES) :
    validateLanguage raw = .ok s := by
  unfold validateLanguage
  rw [hl]
  show (if s ∈ LANGUAGE_CHOICES then Except.ok s else _) = _
  rw [if_pos hs]

lemma validateStyle_of_none {raw : RawMapping}
    (hl : raw.lookup "style" = none) : validateStyle raw = .ok "friendly" := by
  unfold validateStyle
  rw [hl]

lemma validateStyle_of_str_mem {raw : RawMapping} {s : String}
    (hl : raw.lookup "style" = some (.str s)) (hs : s ∈ STYLE_CHOICES) :
    validateStyle raw = .ok s := by
  unfold validateStyle
  rw [hl]
  show (if s ∈ STYLE_CHOICES then Except.ok s else _) = _
  rw [if_pos hs]

lemma validateTitle_of_wrong_type {raw : RawMapping} {v : Value}
    (hl : raw.lookup "title" = some v) (hv : ∀ s, v ≠ .str s) :
    validateTitle raw = .error "Not a valid string." := by
  unfold validateTitle
  rw [hl]
  cases v with
  | str s => exact absurd rfl (hv s)
  | int n => rfl
  | bool b => rfl
  | null => rfl

lemma validateLinenos_of_wrong_type {raw : RawMapping} {v : Value}
    (hl : raw.lookup "linenos" = some v) (hv : ∀ b, v ≠ .bool b) :
    validateLinenos raw = .error "Must be a valid boolean." := by
  unfold validateLinenos
  rw [hl]
  cases v with
  | str s => rfl
  | int n => rfl
  | bool b => exact absurd rfl (hv b)
  | null => rfl

lemma validateLanguage_of_wrong_type {raw : RawMapping} {v : Value}
    (hl : raw.lookup "language" = some v) (hv : ∀ s, v ≠ .str s) :
    validateLanguage raw = .error "Not a valid choice." := by
  unfold validateLanguage
  rw [hl]
  cases v with
  | str s => exact absurd rfl (hv s)
  | int n => rfl
  | bool b => rfl
  | null => rfl

lemma validateLanguage_of_str_notmem {raw : RawMapping} {s : String}
    (hl : raw.lookup "language" = some (.str s)) (hs : s ∉ LANGUAGE_CHOICES) :
    validateLanguage raw = .error "Not a valid choice." := by
  unfold validateLanguage
  rw [hl]
  show (if s ∈ LANGUAGE_CHOICES then _ else _) = _
  rw [if_neg hs]

lemma validateStyle_of_wrong_type {raw : RawMapping} {v : Value}
    (hl : raw.lookup "style" = some v) (hv : ∀ s, v ≠ .str s) :
    validateStyle raw = .error "Not a valid choice." := by
  unfold validateStyle
  rw [hl]
  cases v with
  | str s => exact absurd rfl (hv s)
  | int n => rfl
  | bool b => rfl
  | null => rfl

lemma validateStyle_of_str_notmem {raw : RawMapping} {s : String}
    (hl : raw.lookup "style" = some (.str s)) (hs : s ∉ STYLE_CHOICES) :
    validateStyle raw = .error "Not a valid choice." := by
  unfold validateStyle
  rw [hl]
  show (if s ∈ STYLE_CHOICES then _ else _) = _
  rw [if_neg hs]

lemma hasFieldError_title {raw : RawMapping} {m : String}
    (h : validateTitle raw = .error m) :
    hasFieldError (validate raw) "title" = true := by
  cases hrc : validateCode raw <;> cases hli : validateLinenos raw <;>
    cases hla : validateLanguage raw <;> cases hst : validateStyle raw <;>
    all_goals (unfold validate
               rw [h, hrc, hli, hla, hst]
               try rfl)

lemma hasFieldError_code {raw : RawMapping} {m : String}
    (h : validateCode raw = .error m) :
    hasFieldError (validate raw) "code" = true := by
  cases hrt : validateTitle raw <;> cases hli : validateLinenos raw <;>
    cases hla : validateLanguage raw <;> cases hst : validateStyle raw <;>
    all_goals (unfold validate
               rw [hrt, h, hli, hla, hst]
               try rfl)

lemma hasFieldError_linenos {raw : RawMapping} {m : String}
    (h : validateLinenos raw = .error m) :
    hasFieldError (validate raw) "linenos" = true := by
  cases hrt : validateTitle raw <;> cases hrc : validateCode raw <;>
    cases hla : validateLanguage raw <;> cases hst : validateStyle raw <;>
    all_goals (unfold validate
               rw [hrt, hrc, h, hla, hst]
               try rfl)

lemma hasFieldError_language {raw : RawMapping} {m : String}
    (h : validateLanguage raw = .error m) :
    hasFieldError (validate raw) "language" = true := by
  cases hrt : validateTitle raw <;> cases hrc : validateCode raw <;>
    cases hli : validateLinenos raw <;> cases hst : validateStyle raw <;>
    all_goals (unfold validate
               rw [hrt, hrc, hli, h, hst]
               try rfl)

lemma hasFieldError_style {raw : RawMapping} {m : String}
    (h : validateStyle raw = .error m) :
    hasFieldError (validate raw) "style" = true := by
  cases hrt : validateTitle raw <;> cases hrc : validateCode raw <;>
    cases hli : validateLinenos raw <;> cases hla : validateLanguage raw <;>
    all_goals (unfold validate
               rw [hrt, hrc, hli, hla, h]
               try rfl)

lemma validate_ok_inv {raw : RawMapping} {v : ValidatedData}
    (h : validate raw = .ok v) :
    ∃ t c li la st, validateTitle raw = .ok t ∧ validateCode raw = .ok c ∧
      validateLinenos raw = .ok li ∧ validateLanguage raw = .ok la ∧
      validateStyle raw = .ok st ∧
      v = ⟨some t, some c, some li, some la, some st⟩ := by
  unfold validate at h
  cases hrt : validateTitle raw <;> cases hrc : validateCode raw <;>
    cases hli : validateLinenos raw <;> cases hla : validateLanguage raw <;>
    cases hst : validateStyle raw <;>
    rw [hrt, hrc, hli, hla, hst] at h <;>
    simp [collectErr] at h
  exact ⟨_, _, _, _, _, rfl, rfl, rfl, rfl, rfl, h.symm⟩

lemma validate_ok_intro {raw : RawMapping} {t c : String} {li : Bool}
    {la st : String}
    (ht : validateTitle raw = .ok t) (hc : validateCode raw = .ok c)
    (hli : validateLinenos raw = .ok li) (hla : validateLanguage raw = .ok la)
    (hst : validateStyle raw = .ok st) :
    validate raw = .ok ⟨some t, some c, some li, some la, some st⟩ := by
  unfold validate
  rw [ht, hc, hli, hla, hst]
  rfl

lemma lookup_eraseId {k : String} (hk : k ≠ "id") (raw : RawMapping) :
    List.lookup k (eraseId raw) = List.lookup k raw := by
  induction raw with
  | nil => rfl
  | cons p l ih =>
    obtain ⟨pk, pv⟩ := p
    by_cases hp : pk = "id"
    · subst hp
      have h1 : eraseId (("id", pv) :: l) = eraseId l := by
        simp [eraseId, List.filter]
      have h2 : List.lookup k (("id", pv) :: l) = List.lookup k l := by
        simp [List.lookup, beq_eq_false_iff_ne.mpr hk]
      rw [h1, h2]
      exact ih
    · have h1 : eraseId ((pk, pv) :: l) = (pk, pv) :: eraseId l := by
        simp [eraseId, List.filter, bne, beq_eq_false_iff_ne.mpr hp]
      rw [h1]
      by_cases hkp : k = pk
      · subst hkp
        simp [List.lookup]
      · simp [List.lookup, hkp, ih]

lemma validate_eraseId (raw : RawMapping) :
    validate (eraseId raw) = validate raw := by
  have ht : validateTitle (eraseId raw) = validateTitle raw := by
    unfold validateTitle
    rw [lookup_eraseId (by decide) raw]
  have hc : validateCode (eraseId raw) = validateCode raw := by
    unfold validateCode
    rw [lookup_eraseId (by decide) raw]
  have hli : validateLinenos (eraseId raw) = validateLinenos raw := by
    unfold validateLinenos
    rw [lookup_eraseId (by decide) raw]
  have hla : validateLanguage (eraseId raw) = validateLanguage raw := by
    unfold validateLanguage
    rw [lookup_eraseId (by decide) raw]
  have hst : validateStyle (eraseId raw) = validateStyle raw := by
    unfold validateStyle
    rw [lookup_eraseId (by decide) raw]
  unfold validate
  rw [ht, hc, hli, hla, hst]

end SnippetSerializer

/-- C1: the spec's `update` contract (set each of `title`, `code`, `language`,
`style` from the validated data when present, keep the old value when absent,
then save and return the instance) fails on the code as written: already at
the spec's own test input — validated data carrying only `title = "new"`
against an existing snippet — the first statement of `update`
(`validated_data.get(title, default=...)`, line 86) raises `TypeError`, no
field is assigned and `save` is never reached. -/
theorem c1_update_raises_typeError_at_title_only_input :
    SnippetSerializer.update ⟨1, "old", "print(1)", false, "python", "friendly"⟩
        ⟨some "new", none, none, none, none⟩ =
      { outcome := .error (.typeError "get() takes no keyword arguments"),
        finalInstance := ⟨1, "old", "print(1)", false, "python", "friendly"⟩,
        saved := false } := rfl

/-- C2: for every snippet instance and every validated-data mapping,
`SnippetSerializer.update` raises `TypeError` (from `dict.get` being called
with the keyword argument `default`, which `dict.get` does not accept), before
any field is assigned: the instance's fields are unchanged and it is never
saved. -/
theorem c2_update_always_raises_typeError (inst : Snippet)
    (vd : ValidatedData) :
    SnippetSerializer.update inst vd =
      { outcome := .error (.typeError "get() takes no keyword arguments"),
        finalInstance := inst, saved := false } := rfl

/-- C3: validation returns only the non-read-only fields, with defaults for
every absent optional field (`title` → `""`, `linenos` → `false`, `language` →
`"python"`, `style` → `"friendly"`); in particular the spec's example input
holding only `code` validates to exactly the defaulted mapping. -/
theorem c3_validate_applies_defaults :
    (∀ (raw : RawMapping) (v : ValidatedData),
      SnippetSerializer.validate raw = .ok v →
        (raw.lookup "title" = none → v.title = some "") ∧
        (raw.lookup "linenos" = none → v.linenos = some false) ∧
        (raw.lookup "language" = none → v.language = some "python") ∧
        (raw.lookup "style" = none → v.style = some "friendly")) ∧
    SnippetSerializer.validate exampleHelloWorld =
      .ok ⟨some "", some "print(\"Hello World!\")", some false, some "python",
           some "friendly"⟩ := by
  constructor
  · intro raw v h
    obtain ⟨t, c, li, la, st, ht, hc, hli, hla, hst, rfl⟩ :=
      SnippetSerializer.validate_ok_inv h
    refine ⟨fun hn => ?_, fun hn => ?_, fun hn => ?_, fun hn => ?_⟩
    · have h0 := SnippetSerializer.validateTitle_of_none hn
      rw [ht] at h0
      simp only [Except.ok.injEq] at h0
      simp [h0]
    · have h0 := SnippetSerializer.validateLinenos_of_none hn
      rw [hli] at h0
      simp only [Except.ok.injEq] at h0
      simp [h0]
    · have h0 := SnippetSerializer.validateLanguage_of_none hn
      rw [hla] at h0
      simp only [Except.ok.injEq] at h0
      simp [h0]
    · have h0 := SnippetSerializer.validateStyle_of_none hn
      rw [hst] at h0
      simp only [Except.ok.injEq] at h0
      simp [h0]
  · rfl

/-- Witness for C3: the defaults hold at the concrete input holding only
`code = "x"`. -/
theorem c3_validate_applies_defaults_witness :
    (⟨some "", some "x", some false, some "python", some "friendly"⟩ :
        ValidatedData).language = some "python" :=
  (c3_validate_applies_defaults.1 [("code", Value.str "x")]
      ⟨some "", some "x", some false, some "python", some "friendly"⟩
      rfl).2.2.1 rfl

/-- C4: validation rejects, recording an error message under the offending
field's name: every mapping missing the required `code`; every mapping in
which any of `title`, `code`, `linenos`, `language`, `style` has the wrong
type; every `title` longer than 100 characters; every `language` or `style`
string outside its fixed enumeration — in particular the spec's concrete
input `code = "x"`, `language = "not-a-real-language"`. -/
theorem c4_validate_rejects_invalid :
    (∀ raw : RawMapping, raw.lookup "code" = none →
      hasFieldError (SnippetSerializer.validate raw) "code" = true) ∧
    (∀ (raw : RawMapping) (v : Value), raw.lookup "code" = some v →
      (∀ s, v ≠ Value.str s) →
      hasFieldError (SnippetSerializer.validate raw) "code" = true) ∧
    (∀ (raw : RawMapping) (v : Value), raw.lookup "title" = some v →
      (∀ s, v ≠ Value.str s) →
      hasFieldError (SnippetSerializer.validate raw) "title" = true) ∧
    (∀ (raw : RawMapping) (s : String),
      raw.lookup "title" = some (Value.str s) → 100 < s.length →
      hasFieldError (SnippetSerializer.validate raw) "title" = true) ∧
    (∀ (raw : RawMapping) (v : Value), raw.lookup "linenos" = some v →
      (∀ b, v ≠ Value.bool b) →
      hasFieldError (SnippetSerializer.validate raw) "linenos" = true) ∧
    (∀ (raw : RawMapping) (v : Value), raw.lookup "language" = some v →
      (∀ s, v ≠ Value.str s) →
      hasFieldError (SnippetSerializer.validate raw) "language" = true) ∧
    (∀ (raw : RawMapping) (s : String),
      raw.lookup "language" = some (Value.str s) → s ∉ LANGUAGE_CHOICES →
      hasFieldError (SnippetSerializer.validate raw) "language" = true) ∧
    (∀ (raw : RawMapping) (v : Value), raw.lookup "style" = some v →
      (∀ s, v ≠ Value.str s) →
      hasFieldError (SnippetSerializer.validate raw) "style" = true) ∧
    (∀ (raw : RawMapping) (s : String),
      raw.lookup "style" = some (Value.str s) → s ∉ STYLE_CHOICES →
      hasFieldError (SnippetSerializer.validate raw) "style" = true) ∧
    hasFieldError (SnippetSerializer.validate
        [("code", Value.str "x"), ("language", Value.str "not-a-real-language")])
      "language" = true :=
  ⟨fun _ hl => SnippetSerializer.hasFieldError_code
     (SnippetSerializer.validateCode_of_none hl),
   fun _ _ hl hv => SnippetSerializer.hasFieldError_code
     (SnippetSerializer.validateCode_of_wrong_type hl hv),
   fun _ _ hl hv => SnippetSerializer.hasFieldError_title
     (SnippetSerializer.validateTitle_of_wrong_type hl hv),
   fun _ _ hl hlen => SnippetSerializer.hasFieldError_title
     (SnippetSerializer.validateTitle_of_str_long hl hlen),
   fun _ _ hl hv => SnippetSerializer.hasFieldError_linenos
     (SnippetSerializer.validateLinenos_of_wrong_type hl hv),
   fun _ _ hl hv => SnippetSerializer.hasFieldError_language
     (SnippetSerializer.validateLanguage_of_wrong_type hl hv),
   fun _ _ hl hs => SnippetSerializer.hasFieldError_language
     (SnippetSerializer.validateLanguage_of_str_notmem hl hs),
   fun _ _ hl hv => SnippetSerializer.hasFieldError_style
     (SnippetSerializer.validateStyle_of_wrong_type hl hv),
   fun _ _ hl hs => SnippetSerializer.hasFieldError_style
     (SnippetSerializer.validateStyle_of_str_notmem hl hs),
   rfl⟩

/-- Witness for C4: one concrete rejection per violation class — missing
`code`, wrongly typed `code`/`title`/`linenos`/`language`/`style`, a
101-character `title`, and out-of-enumeration `language` and `style`. -/
theorem c4_validate_rejects_invalid_witness :
    hasFieldError (SnippetSerializer.validate []) "code" = true ∧
    hasFieldError (SnippetSerializer.validate [("code", Value.int 3)])
      "code" = true ∧
    hasFieldError (SnippetSerializer.validate
        [("code", Value.str "x"), ("title", Value.int 7)]) "title" = true ∧
    hasFieldError (SnippetSerializer.validate
        [("code", Value.str "x"), ("title", Value.str longTitle)])
      "title" = true ∧
    hasFieldError (SnippetSerializer.validate
        [("code", Value.str "x"), ("linenos", Value.str "yes")])
      "linenos" = true ∧
    hasFieldError (SnippetSerializer.validate
        [("code", Value.str "x"), ("language", Value.bool true)])
      "language" = true ∧
    hasFieldError (SnippetSerializer.validate
        [("code", Value.str "x"), ("language", Value.str "not-a-real-language")])
      "language" = true ∧
    hasFieldError (SnippetSerializer.validate
        [("code", Value.str "x"), ("style", Value.int 0)]) "style" = true ∧
    hasFieldError (SnippetSerializer.validate
        [("code", Value.str "x"), ("style", Value.str "not-a-real-style")])
      "style" = true :=
  ⟨c4_validate_rejects_invalid.1 [] rfl,
   c4_validate_rejects_invalid.2.1 [("code", Value.int 3)] (Value.int 3) rfl
     (fun _ hs => Value.noConfusion hs),
   c4_validate_rejects_invalid.2.2.1
     [("code", Value.str "x"), ("title", Value.int 7)] (Value.int 7) rfl
     (fun _ hs => Value.noConfusion hs),
   c4_validate_rejects_invalid.2.2.2.1
     [("code", Value.str "x"), ("title", Value.str longTitle)] longTitle rfl
     (by decide),
   c4_validate_rejects_invalid.2.2.2.2.1
     [("code", Value.str "x"), ("linenos", Value.str "yes")]
     (Value.str "yes") rfl (fun _ hs => Value.noConfusion hs),
   c4_validate_rejects_invalid.2.2.2.2.2.1
     [("code", Value.str "x"), ("language", Value.bool true)]
     (Value.bool true) rfl (fun _ hs => Value.noConfusion hs),
   c4_validate_rejects_invalid.2.2.2.2.2.2.1
     [("code", Value.str "x"), ("language", Value.str "not-a-real-language")]
     "not-a-real-language" rfl (by decide),
   c4_validate_rejects_invalid.2.2.2.2.2.2.2.1
     [("code", Value.str "x"), ("style", Value.int 0)] (Value.int 0) rfl
     (fun _ hs => Value.noConfusion hs),
   c4_validate_rejects_invalid.2.2.2.2.2.2.2.2.1
     [("code", Value.str "x"), ("style", Value.str "not-a-real-style")]
     "not-a-real-style" rfl (by decide)⟩

/-- C5: whatever keys the validated data contains, `update` leaves the
instance's `linenos` and `id` unchanged (the method's field list omits
`linenos` and never touches `id`; in fact, as C2 records, it aborts before
assigning anything). -/
theorem c5_update_preserves_linenos_and_id (inst : Snippet)
    (vd : ValidatedData) :
    (SnippetSerializer.update inst vd).finalInstance.linenos = inst.linenos ∧
    (SnippetSerializer.update inst vd).finalInstance.id = inst.id :=
  ⟨rfl, rfl⟩

/-- C6: round-trip — validated data, once turned into a created snippet and
projected back to plain data, validates again to exactly the same validated
data, whatever `id` the persistence collaborator assigned. -/
theorem c6_round_trip (raw : RawMapping) (v : ValidatedData) (nextId : Int)
    (h : SnippetSerializer.validate raw = .ok v) :
    SnippetSerializer.validate
      (SnippetSerializer.toPlainData (SnippetSerializer.create nextId v)) =
      .ok v := by
  obtain ⟨t, c, li, la, st, ht, hc, hli, hla, hst, rfl⟩ :=
    SnippetSerializer.validate_ok_inv h
  exact SnippetSerializer.validate_ok_intro
    (SnippetSerializer.validateTitle_of_str rfl
      (SnippetSerializer.validateTitle_ok_length ht))
    (SnippetSerializer.validateCode_of_str rfl)
    (SnippetSerializer.validateLinenos_of_bool rfl)
    (SnippetSerializer.validateLanguage_of_str_mem rfl
      (SnippetSerializer.validateLanguage_ok_mem hla))
    (SnippetSerializer.validateStyle_of_str_mem rfl
      (SnippetSerializer.validateStyle_ok_mem hst))

/-- Witness for C6: the round trip at the spec's example input and a concrete
assigned id. -/
theorem c6_round_trip_witness :
    SnippetSerializer.validate
      (SnippetSerializer.toPlainData (SnippetSerializer.create 2
        ⟨some "", some "print(\"Hello World!\")", some false, some "python",
         some "friendly"⟩)) =
      .ok ⟨some "", some "print(\"Hello World!\")", some false, some "python",
           some "friendly"⟩ :=
  c6_round_trip exampleHelloWorld
    ⟨some "", some "print(\"Hello World!\")", some false, some "python",
     some "friendly"⟩ 2 rfl

/-- C7 counterexample: the two serializers are not behaviorally equivalent —
on an existing snippet with validated data `title = "new"`, the explicit
`update` raises `TypeError` and saves nothing, while the model-derived
`update` assigns the field and saves. -/
theorem c7_update_inequivalence_counterexample :
    SnippetSerializer.update ⟨1, "old", "c", false, "python", "friendly"⟩
        ⟨some "new", none, none, none, none⟩ ≠
      SnippetModelSerializer.update ⟨1, "old", "c", false, "python", "friendly"⟩
        ⟨some "new", none, none, none, none⟩ :=
  fun h => Bool.noConfusion (congrArg UpdateResult.saved h)

/-- C7 amended: the model-derived serializer agrees with the explicit one on
validation, plain-data projection and creation; the update operations differ —
the derived update assigns every present field (including `linenos`) and
saves, whereas the explicit update never saves (it raises `TypeError`). -/
theorem c7_equivalence_amended :
    (∀ raw : RawMapping,
      SnippetModelSerializer.validate raw = SnippetSerializer.validate raw) ∧
    (∀ s : Snippet,
      SnippetModelSerializer.toPlainData s = SnippetSerializer.toPlainData s) ∧
    (∀ (nextId : Int) (vd : ValidatedData),
      SnippetModelSerializer.create nextId vd =
        SnippetSerializer.create nextId vd) ∧
    (∀ (inst : Snippet) (vd : ValidatedData),
      (SnippetSerializer.update inst vd).saved = false ∧
      (SnippetModelSerializer.update inst vd).saved = true ∧
      (SnippetModelSerializer.update inst vd).finalInstance =
        { id := inst.id, title := vd.title.getD inst.title,
          code := vd.code.getD inst.code,
          linenos := vd.linenos.getD inst.linenos,
          language := vd.language.getD inst.language,
          style := vd.style.getD inst.style }) :=
  ⟨fun _ => rfl, fun _ => rfl, fun _ _ => rfl, fun _ _ => ⟨rfl, rfl, rfl⟩⟩

/-- C8: `toPlainData` is a pure projection: its keys are exactly
`id, title, code, linenos, language, style` in that order, `id` maps to the
persisted id and every other key to the stored field value. -/
theorem c8_toPlainData_ordered_projection (s : Snippet) :
    (SnippetSerializer.toPlainData s).map Prod.fst =
      ["id", "title", "code", "linenos", "language", "style"] ∧
    (SnippetSerializer.toPlainData s).lookup "id" = some (Value.int s.id) ∧
    (SnippetSerializer.toPlainData s).lookup "title" =
      some (Value.str s.title) ∧
    (SnippetSerializer.toPlainData s).lookup "code" =
      some (Value.str s.code) ∧
    (SnippetSerializer.toPlainData s).lookup "linenos" =
      some (Value.bool s.linenos) ∧
    (SnippetSerializer.toPlainData s).lookup "language" =
      some (Value.str s.language) ∧
    (SnippetSerializer.toPlainData s).lookup "style" =
      some (Value.str s.style) :=
  ⟨rfl, rfl, rfl, rfl, rfl, rfl, rfl⟩

/-- C9: a client-supplied `id` is never accepted — validation is insensitive
to any `id` bindings in the input (and its output type has no id field),
`create` takes its id solely from the persistence collaborator, and `update`
never changes the instance's id. -/
theorem c9_id_never_accepted :
    (∀ raw : RawMapping,
      SnippetSerializer.validate (eraseId raw) =
        SnippetSerializer.validate raw) ∧
    (∀ (nextId : Int) (vd : ValidatedData),
      (SnippetSerializer.create nextId vd).id = nextId) ∧
    (∀ (inst : Snippet) (vd : ValidatedData),
      (SnippetSerializer.update inst vd).finalInstance.id = inst.id) :=
  ⟨SnippetSerializer.validate_eraseId, fun _ _ => rfl, fun _ _ => rfl⟩

/-- C10: `create` always succeeds on data that passed validation (which
carries all five writable fields), building a snippet whose fields are exactly
the validated values and whose `id` is the one assigned by the persistence
collaborator. -/
theorem c10_create_persists_validated (raw : RawMapping) (v : ValidatedData)
    (nextId : Int) (h : SnippetSerializer.validate raw = .ok v) :
    ∃ t c li la st, v = ⟨some t, some c, some li, some la, some st⟩ ∧
      SnippetSerializer.create nextId v =
        { id := nextId, title := t, code := c, linenos := li, language := la,
          style := st } := by
  obtain ⟨t, c, li, la, st, _, _, _, _, _, rfl⟩ :=
    SnippetSerializer.validate_ok_inv h
  exact ⟨t, c, li, la, st, rfl, rfl⟩

/-- Witness for C10: creation from the spec's example validated data with a
concrete assigned id. -/
theorem c10_create_persists_validated_witness :
    ∃ t c li la st,
      (⟨some "", some "print(\"Hello World!\")", some false, some "python",
        some "friendly"⟩ : ValidatedData) =
        ⟨some t, some c, some li, some la, some st⟩ ∧
      SnippetSerializer.create 2
        ⟨some "", some "print(\"Hello World!\")", some false, some "python",
         some "friendly"⟩ =
        { id := 2, title := t, code := c, linenos := li, language := la,
          style := st } :=
  c10_create_persists_validated exampleHelloWorld
    ⟨some "", some "print(\"Hello World!\")", some false, some "python",
     some "friendly"⟩ 2 rfl

end Snippets
